import Mathlib

/-!
Verification development for the opendeck-akp153 plugin core: the device
kind catalog (`src/mappings.rs`) and the dispatcher loop
(`src/dispatcher.rs`), shallowly embedded in Lean.
-/

namespace Akp153

/-! ## Device kind catalog (src/mappings.rs) -/

/-- The closed enumeration of supported device variants (`enum Kind`). -/
inductive Kind
  | HSV293S
  | HSV293SV3
  | HSV293SV3_1005
  | AKP153
  | AKP153E
  | AKP153EREV2
  | AKP153R
  | MSDONE
  | GK150K
  | RMV01
  | TMICESC
  deriving DecidableEq, Repr

def DEVICE_NAMESPACE : String := "99"

def ROW_COUNT : Nat := 3
def COL_COUNT : Nat := 6
def KEY_COUNT : Nat := ROW_COUNT * COL_COUNT
def ENCODER_COUNT : Nat := 0

def AJAZZ_VID : Nat := 0x0300
def MIRABOX_VID : Nat := 0x5548
def MIRABOX_2_VID : Nat := 0x6603
def MG_VID : Nat := 0x0b00
def MADDOG_VID : Nat := 0x0c00
def RISEMODE_VID : Nat := 0x0a00
def TMICE_VID : Nat := 0x0500

def HSV293S_PID : Nat := 0x6670
def HSV293SV3_PID : Nat := 0x1014
def HSV293SV3_1005_PID : Nat := 0x1005

def AKP153_PID : Nat := 0x6674
def AKP153E_PID : Nat := 0x1010
def AKP153E_REV2_PID : Nat := 0x3010
def AKP153R_PID : Nat := 0x1020

def MSD_ONE_PID : Nat := 0x1000

def GK150K_PID : Nat := 0x1000

def RMV01_PID : Nat := 0x1001
def TMICESC_PID : Nat := 0x1001

/-- Image pixel mode, from the external `mirajazz` types consumed by
`get_image_format_for_key`. -/
inductive ImageMode
  | BMP
  | JPEG
  deriving DecidableEq, Repr

/-- Image rotation, from the external `mirajazz` types. -/
inductive ImageRotation
  | Rot0
  | Rot90
  | Rot180
  | Rot270
  deriving DecidableEq, Repr

/-- Image mirroring, from the external `mirajazz` types. -/
inductive ImageMirroring
  | NoMirror
  | X
  | Y
  | Both
  deriving DecidableEq, Repr

/-- The image format record from the external `mirajazz` types. -/
structure ImageFormat where
  mode : ImageMode
  size : Nat × Nat
  rotation : ImageRotation
  mirror : ImageMirroring
  deriving DecidableEq, Repr

/-- `Kind::protocol_version` -/
def Kind.protocol_version : Kind → Nat
  | .HSV293SV3 => 2
  | .HSV293SV3_1005 => 2
  | .AKP153EREV2 => 2
  | _ => 1

/-- `Kind::supports_both_states` -/
def Kind.supports_both_states : Kind → Bool
  | .HSV293SV3 => true
  | .HSV293SV3_1005 => true
  | .AKP153EREV2 => true
  | _ => false

/-- `Kind::human_name` -/
def Kind.human_name : Kind → String
  | .HSV293S => "Mirabox HSV293S"
  | .HSV293SV3 => "Mirabox HSV293SV3"
  | .HSV293SV3_1005 => "Mirabox HSV293SV3"
  | .AKP153 => "Ajazz AKP153"
  | .AKP153E => "Ajazz AKP153E"
  | .AKP153EREV2 => "Ajazz AKP153E (rev. 2)"
  | .AKP153R => "Ajazz AKP153R"
  | .MSDONE => "Mars Gaming MSD-ONE"
  | .GK150K => "Mad Dog GK150K"
  | .RMV01 => "Risemode Vision 01"
  | .TMICESC => "TMICE Stream Controller"

/-- `Kind::id_suffix`; the `unreachable!()` panic branches for the three
generation-2 kinds are embedded as `none`. -/
def Kind.id_suffix : Kind → Option String
  | .AKP153 => some "153"
  | .AKP153E => some "153E"
  | .AKP153R => some "153R"
  | .HSV293S => some "293S"
  | .MSDONE => some "MSDONE"
  | .GK150K => some "GK150K"
  | .RMV01 => some "RMV01"
  | .TMICESC => some "TMICESC"
  | .HSV293SV3 => none
  | .HSV293SV3_1005 => none
  | .AKP153EREV2 => none

/-- `Kind::from_vid_pid`: the nested `match vid { .. match pid { .. } }`
embedded as a chain of equality tests against the named constants. -/
def Kind.from_vid_pid (vid pid : Nat) : Option Kind :=
  if vid = AJAZZ_VID then
    if pid = AKP153_PID then some Kind.AKP153
    else if pid = AKP153E_PID then some Kind.AKP153E
    else if pid = AKP153E_REV2_PID then some Kind.AKP153EREV2
    else if pid = AKP153R_PID then some Kind.AKP153R
    else none
  else if vid = MIRABOX_VID then
    if pid = HSV293S_PID then some Kind.HSV293S
    else none
  else if vid = MIRABOX_2_VID then
    if pid = HSV293SV3_PID then some Kind.HSV293SV3
    else if pid = HSV293SV3_1005_PID then some Kind.HSV293SV3_1005
    else none
  else if vid = MG_VID then
    if pid = MSD_ONE_PID then some Kind.MSDONE
    else none
  else if vid = MADDOG_VID then
    if pid = GK150K_PID then some Kind.GK150K
    else none
  else if vid = RISEMODE_VID then
    if pid = RMV01_PID then some Kind.RMV01
    else none
  else if vid = TMICE_VID then
    if pid = TMICESC_PID then some Kind.TMICESC
    else none
  else none

/-- `get_image_format_for_key` -/
def get_image_format_for_key (kind : Kind) (key : Nat) : ImageFormat :=
  if kind.protocol_version = 1 then
    { mode := ImageMode.JPEG
      size := (85, 85)
      rotation := ImageRotation.Rot90
      mirror := ImageMirroring.Both }
  else
    let size := if key = 5 ∨ key = 11 ∨ key = 17 then (82, 82) else (95, 95)
    { mode := ImageMode.JPEG
      size := size
      rotation := ImageRotation.Rot90
      mirror := ImageMirroring.Both }

/-- The eleven (vendor id, product id, kind) triples matched by
`Kind::from_vid_pid`, written out explicitly. -/
def vidPidCatalog : List (Nat × Nat × Kind) :=
  [ (AJAZZ_VID, AKP153_PID, Kind.AKP153),
    (AJAZZ_VID, AKP153E_PID, Kind.AKP153E),
    (AJAZZ_VID, AKP153E_REV2_PID, Kind.AKP153EREV2),
    (AJAZZ_VID, AKP153R_PID, Kind.AKP153R),
    (MIRABOX_VID, HSV293S_PID, Kind.HSV293S),
    (MIRABOX_2_VID, HSV293SV3_PID, Kind.HSV293SV3),
    (MIRABOX_2_VID, HSV293SV3_1005_PID, Kind.HSV293SV3_1005),
    (MG_VID, MSD_ONE_PID, Kind.MSDONE),
    (MADDOG_VID, GK150K_PID, Kind.GK150K),
    (RISEMODE_VID, RMV01_PID, Kind.RMV01),
    (TMICE_VID, TMICESC_PID, Kind.TMICESC) ]

/-! ## Dispatcher (src/dispatcher.rs) -/

/-- Modelled from the spec: the key-state update type delivered by the
external `mirajazz` collaborator (`DeviceStateUpdate`). Only the button
variants are acted upon by the dispatcher; the encoder variants stand for
the other device-native event kinds. -/
inductive StateUpdate
  | ButtonDown (key : Nat)
  | ButtonUp (key : Nat)
  | EncoderDown (idx : Nat)
  | EncoderUp (idx : Nat)
  | EncoderTwist (idx : Nat) (val : Int)
  deriving DecidableEq, Repr

/-- Modelled from the spec: the `DeviceMessage` tagged union declared in
`src/device.rs` (not part of the provided sources); its variants and
payload shapes follow the spec's data model and the dispatcher's match
arms. A session's channel handle is abstracted as a `Nat` token and the
image command payload as an opaque `Nat`. -/
inductive DeviceMessage
  | PluginInitialized
  | Connected (id : String) (kind : Kind) (handle : Nat)
  | Disconnected (id : String)
  | ShutdownAll
  | Update (id : String) (upd : StateUpdate)
  | SetImage (id : String) (img : Nat)
  | SetBrightness (id : String) (level : Nat)
  deriving DecidableEq, Repr

/-- A call into the host collaborator (`OUTBOUND_EVENT_MANAGER`). -/
inductive HostCall
  | registerDevice (id : String) (name : String) (rows cols encRows encCols : Nat)
  | deregisterDevice (id : String)
  | keyDown (id : String) (key : Nat)
  | keyUp (id : String) (key : Nat)
  deriving DecidableEq, Repr

/-- An observable effect of one dispatcher loop iteration. -/
inductive Effect
  | host (c : HostCall)
  | deviceSend (handle : Nat) (msg : DeviceMessage)
  | logError (id : String)
  | spawnSessions
  deriving DecidableEq, Repr

/-- The dispatcher's registry (`devices : HashMap<String, Sender<..>>`),
embedded as an association list from device id to channel handle with
map semantics: insert replaces, remove erases. -/
abbrev Registry := List (String × Nat)

/-- Lookup of a device id in the registry (`HashMap::get`). -/
def lookupReg : Registry → String → Option Nat
  | [], _ => none
  | e :: rest, id => if e.1 = id then some e.2 else lookupReg rest id

/-- Removal of a device id (`HashMap::remove_entry`). -/
def removeReg : Registry → String → Registry
  | [], _ => []
  | e :: rest, id => if e.1 = id then removeReg rest id else e :: removeReg rest id

/-- Insertion of a binding (`HashMap::insert`): replaces any existing
binding for the same id. -/
def insertReg (reg : Registry) (id : String) (handle : Nat) : Registry :=
  (id, handle) :: removeReg reg id

/-- Membership test (`HashMap::contains_key`). -/
def containsReg (reg : Registry) (id : String) : Bool :=
  (lookupReg reg id).isSome

/-- The dispatcher's environment: whether `OUTBOUND_EVENT_MANAGER` holds a
manager, which host calls succeed, and which session channels accept a
send. -/
structure Env where
  hasOutbound : Bool
  hostOk : HostCall → Bool
  sendOk : Nat → Bool

/-- Outcome of processing one inbound message: continue the loop with a
new registry, break out of the loop (`ShutdownAll`), or panic (a failed
`.unwrap()`). Effects are listed in program order. -/
inductive StepResult
  | next (reg : Registry) (effects : List Effect)
  | halted (reg : Registry) (effects : List Effect)
  | panicked (effects : List Effect)
  deriving DecidableEq, Repr

/-- One iteration of the `match message { .. }` in `dispatcher_task`. -/
def step (env : Env) (reg : Registry) : DeviceMessage → StepResult
  | .PluginInitialized => .next reg [.spawnSessions]
  | .Connected id kind handle =>
      let reg2 := insertReg reg id handle
      if env.hasOutbound then
        let c := HostCall.registerDevice id kind.human_name ROW_COUNT COL_COUNT 0 0
        if env.hostOk c then .next reg2 [.host c] else .panicked [.host c]
      else .next reg2 []
  | .Disconnected id =>
      let reg2 := removeReg reg id
      if env.hasOutbound then
        let c := HostCall.deregisterDevice id
        if env.hostOk c then .next reg2 [.host c] else .panicked [.host c]
      else .next reg2 []
  | .ShutdownAll =>
      .halted reg (reg.map fun e => .deviceSend e.2 .ShutdownAll)
  | .Update id upd =>
      if containsReg reg id then
        if env.hasOutbound then
          match upd with
          | .ButtonDown key =>
              let c := HostCall.keyDown id key
              if env.hostOk c then .next reg [.host c] else .panicked [.host c]
          | .ButtonUp key =>
              let c := HostCall.keyUp id key
              if env.hostOk c then .next reg [.host c] else .panicked [.host c]
          | _ => .next reg []
        else .next reg []
      else .next reg [.logError id]
  | .SetImage id img =>
      match lookupReg reg id with
      | some handle =>
          if env.sendOk handle then .next reg [.deviceSend handle (.SetImage id img)]
          else .panicked [.deviceSend handle (.SetImage id img)]
      | none => .next reg [.logError id]
  | .SetBrightness id level =>
      match lookupReg reg id with
      | some handle =>
          if env.sendOk handle then .next reg [.deviceSend handle (.SetBrightness id level)]
          else .panicked [.deviceSend handle (.SetBrightness id level)]
      | none => .next reg [.logError id]

/-- Outcome of running the dispatcher loop on a finite prefix of the
inbound stream: `finished` means the loop was broken by `ShutdownAll` and
the task returned; `panicked` means a failed `.unwrap()`; `pending` means
the prefix was exhausted with the loop still waiting to receive. -/
inductive RunResult
  | finished (reg : Registry) (effects : List Effect)
  | panicked (effects : List Effect)
  | pending (reg : Registry) (effects : List Effect)
  deriving DecidableEq, Repr

/-- The `loop { disp_rx.recv().await.unwrap(); .. }` of `dispatcher_task`.
Each element of the input list is one result of `recv()`: `some m` is a
delivered message, `none` is a closed-and-empty channel, on which the
`.unwrap()` panics. After a `halted` step the remaining inputs are not
consumed. -/
def run (env : Env) : Registry → List Effect → List (Option DeviceMessage) → RunResult
  | reg, effs, [] => .pending reg effs
  | _, effs, none :: _ => .panicked effs
  | reg, effs, some m :: rest =>
      match step env reg m with
      | .next reg2 es => run env reg2 (effs ++ es) rest
      | .halted reg2 es => .finished reg2 (effs ++ es)
      | .panicked es => .panicked (effs ++ es)

/-- A benign environment: the host manager is present and every host call
and channel send succeeds. -/
def env0 : Env :=
  { hasOutbound := true, hostOk := fun _ => true, sendOk := fun _ => true }

/-- The registry projection of `step`: `Connected` inserts, `Disconnected`
removes, every other message leaves the registry unchanged. -/
def regStep (reg : Registry) : DeviceMessage → Registry
  | .Connected id _ handle => insertReg reg id handle
  | .Disconnected id => removeReg reg id
  | _ => reg

/-- Whether the last `Connected`/`Disconnected` message for `id` in the
sequence is a `Connected`: the spec's "last Connected not followed by a
Disconnected". -/
def connActive (msgs : List DeviceMessage) (id : String) : Bool :=
  msgs.foldl
    (fun b m =>
      match m with
      | .Connected i _ _ => if i = id then true else b
      | .Disconnected i => if i = id then false else b
      | _ => b)
    false

/-- Whether a message is a `Connected` or `Disconnected` lifecycle
message. -/
def isLifecycle : DeviceMessage → Bool
  | .Connected _ _ _ => true
  | .Disconnected _ => true
  | _ => false

/-! ## Registry lemmas -/

theorem lookupReg_removeReg (reg : Registry) (i id : String) :
    lookupReg (removeReg reg i) id = if i = id then none else lookupReg reg id := by
  induction reg with
  | nil => simp [removeReg, lookupReg]
  | cons e rest ih =>
      by_cases he : e.1 = i <;> by_cases hid : i = id <;>
        simp_all [removeReg, lookupReg]

theorem lookupReg_insertReg (reg : Registry) (i id : String) (handle : Nat) :
    lookupReg (insertReg reg i handle) id =
      if i = id then some handle else lookupReg reg id := by
  simp only [insertReg, lookupReg, lookupReg_removeReg]
  by_cases h : i = id <;> simp [h]

theorem removeReg_of_lookup_none (reg : Registry) (id : String)
    (h : lookupReg reg id = none) : removeReg reg id = reg := by
  induction reg with
  | nil => rfl
  | cons e rest ih =>
      simp only [lookupReg] at h
      by_cases he : e.1 = id
      · simp [he] at h
      · simp only [removeReg, he, if_false]
        rw [ih (by simpa [he] using h)]

theorem keys_removeReg_sublist (reg : Registry) (i : String) :
    ((removeReg reg i).map Prod.fst).Sublist (reg.map Prod.fst) := by
  induction reg with
  | nil => simp [removeReg]
  | cons e rest ih =>
      by_cases he : e.1 = i
      · simp only [removeReg, he, if_true, List.map_cons]
        exact ih.cons _
      · simp only [removeReg, he, if_false, List.map_cons]
        exact ih.cons₂ e.1

theorem not_mem_keys_removeReg (reg : Registry) (i : String) :
    i ∉ (removeReg reg i).map Prod.fst := by
  induction reg with
  | nil => simp [removeReg]
  | cons e rest ih =>
      by_cases he : e.1 = i
      · simpa [removeReg, he] using ih
      · simp only [removeReg, he, if_false, List.map_cons, List.mem_cons]
        rintro (h | h)
        · exact he h.symm
        · exact ih h

theorem nodup_keys_regStep (reg : Registry) (m : DeviceMessage)
    (h : (reg.map Prod.fst).Nodup) : ((regStep reg m).map Prod.fst).Nodup := by
  cases m with
  | Connected id kind handle =>
      simp only [regStep, insertReg, List.map_cons, List.nodup_cons]
      exact ⟨not_mem_keys_removeReg reg id, (keys_removeReg_sublist reg id).nodup h⟩
  | Disconnected id => exact (keys_removeReg_sublist reg id).nodup h
  | PluginInitialized => exact h
  | ShutdownAll => exact h
  | Update id upd => exact h
  | SetImage id img => exact h
  | SetBrightness id level => exact h

theorem nodup_keys_foldl_regStep (msgs : List DeviceMessage) :
    ∀ reg : Registry, (reg.map Prod.fst).Nodup →
      ((msgs.foldl regStep reg).map Prod.fst).Nodup := by
  induction msgs with
  | nil => exact fun reg h => h
  | cons m rest ih =>
      intro reg h
      exact ih (regStep reg m) (nodup_keys_regStep reg m h)

theorem lookupReg_foldl_regStep (msgs : List DeviceMessage) (id : String) :
    ∀ reg : Registry,
      (lookupReg (msgs.foldl regStep reg) id).isSome =
        msgs.foldl
          (fun b m =>
            match m with
            | .Connected i _ _ => if i = id then true else b
            | .Disconnected i => if i = id then false else b
            | _ => b)
          ((lookupReg reg id).isSome) := by
  induction msgs with
  | nil => exact fun reg => rfl
  | cons m rest ih =>
      intro reg
      simp only [List.foldl_cons]
      rw [ih (regStep reg m)]
      congr 1
      cases m <;>
        simp only [regStep, lookupReg_insertReg, lookupReg_removeReg] <;>
        split_ifs <;> simp

theorem step_next_reg (env : Env) (reg : Registry) (m : DeviceMessage)
    (reg2 : Registry) (effs : List Effect)
    (h : step env reg m = .next reg2 effs) : reg2 = regStep reg m := by
  cases m with
  | PluginInitialized =>
      simp only [step, StepResult.next.injEq] at h
      simp [regStep, h.1.symm]
  | Connected id kind handle =>
      simp only [step] at h
      split_ifs at h <;> simp_all [regStep]
  | Disconnected id =>
      simp only [step] at h
      split_ifs at h <;> simp_all [regStep]
  | ShutdownAll => simp [step] at h
  | Update id upd =>
      cases upd <;>
        (simp only [step] at h
         split_ifs at h <;> simp_all [regStep])
  | SetImage id img =>
      simp only [step] at h
      split at h <;> (try split_ifs at h) <;> simp_all [regStep]
  | SetBrightness id level =>
      simp only [step] at h
      split at h <;> (try split_ifs at h) <;> simp_all [regStep]

theorem regStep_insert_only (reg : Registry) (m : DeviceMessage) (id : String)
    (h1 : lookupReg reg id = none)
    (h2 : (lookupReg (regStep reg m) id).isSome = true) :
    ∃ kind handle, m = .Connected id kind handle := by
  cases m with
  | Connected i kind handle =>
      simp only [regStep, lookupReg_insertReg] at h2
      by_cases hi : i = id
      · exact ⟨kind, handle, by rw [hi]⟩
      · simp [hi, h1] at h2
  | Disconnected i =>
      simp only [regStep, lookupReg_removeReg] at h2
      split_ifs at h2 <;> simp_all
  | PluginInitialized => simp [regStep, h1] at h2
  | ShutdownAll => simp [regStep, h1] at h2
  | Update i upd => simp [regStep, h1] at h2
  | SetImage i img => simp [regStep, h1] at h2
  | SetBrightness i level => simp [regStep, h1] at h2

theorem regStep_remove_only (reg : Registry) (m : DeviceMessage) (id : String)
    (h1 : (lookupReg reg id).isSome = true)
    (h2 : lookupReg (regStep reg m) id = none) :
    m = .Disconnected id := by
  cases m with
  | Disconnected i =>
      simp only [regStep, lookupReg_removeReg] at h2
      by_cases hi : i = id
      · rw [hi]
      · simp [hi] at h2
        simp [h2] at h1
  | Connected i kind handle =>
      simp only [regStep, lookupReg_insertReg] at h2
      split_ifs at h2
      simp_all
  | PluginInitialized => simp only [regStep] at h2; simp [h2] at h1
  | ShutdownAll => simp only [regStep] at h2; simp [h2] at h1
  | Update i upd => simp only [regStep] at h2; simp [h2] at h1
  | SetImage i img => simp only [regStep] at h2; simp [h2] at h1
  | SetBrightness i level => simp only [regStep] at h2; simp [h2] at h1

/-- C2: starting from the empty registry, after any finite sequence of
`Connected`/`Disconnected` messages the registry maps exactly those ids
whose last `Connected` is not followed by a `Disconnected`, with at most
one entry per id (no duplicate keys); the registry projection of `step` is
`regStep`, under which only a `Connected` message can insert an absent id
and only a `Disconnected` message can remove a present one. -/
theorem C2_registry_characterization (msgs : List DeviceMessage)
    (_hcd : ∀ m ∈ msgs, isLifecycle m = true) :
    (∀ id, (lookupReg (msgs.foldl regStep []) id).isSome = connActive msgs id) ∧
    ((msgs.foldl regStep []).map Prod.fst).Nodup ∧
    (∀ (env : Env) (reg : Registry) (m : DeviceMessage) (reg2 : Registry)
        (effs : List Effect),
      step env reg m = .next reg2 effs → reg2 = regStep reg m) ∧
    (∀ (env : Env) (reg reg2 : Registry) (effs : List Effect),
      step env reg .ShutdownAll = .halted reg2 effs → reg2 = reg) ∧
    (∀ (reg : Registry) (m : DeviceMessage) (id : String),
      lookupReg reg id = none → (lookupReg (regStep reg m) id).isSome = true →
      ∃ kind handle, m = .Connected id kind handle) ∧
    (∀ (reg : Registry) (m : DeviceMessage) (id : String),
      (lookupReg reg id).isSome = true → lookupReg (regStep reg m) id = none →
      m = .Disconnected id) := by
  refine ⟨?_, ?_, step_next_reg, ?_, regStep_insert_only, regStep_remove_only⟩
  · intro id
    have h := lookupReg_foldl_regStep msgs id []
    simpa [connActive, lookupReg] using h
  · exact nodup_keys_foldl_regStep msgs [] (by simp)
  · intro env reg reg2 effs h
    simp only [step, StepResult.halted.injEq] at h
    exact h.1.symm

/-- Witness for C2 on a concrete lifecycle sequence: "a" is connected then
disconnected, "b" stays connected. -/
theorem C2_registry_characterization_witness :
    (lookupReg ([DeviceMessage.Connected "a" Kind.AKP153 1,
        DeviceMessage.Disconnected "a",
        DeviceMessage.Connected "b" Kind.AKP153E 2].foldl regStep []) "a").isSome =
      connActive [DeviceMessage.Connected "a" Kind.AKP153 1,
        DeviceMessage.Disconnected "a",
        DeviceMessage.Connected "b" Kind.AKP153E 2] "a" ∧
    (lookupReg ([DeviceMessage.Connected "a" Kind.AKP153 1,
        DeviceMessage.Disconnected "a",
        DeviceMessage.Connected "b" Kind.AKP153E 2].foldl regStep []) "b").isSome =
      connActive [DeviceMessage.Connected "a" Kind.AKP153 1,
        DeviceMessage.Disconnected "a",
        DeviceMessage.Connected "b" Kind.AKP153E 2] "b" :=
  ⟨(C2_registry_characterization _ (by decide)).1 "a",
   (C2_registry_characterization _ (by decide)).1 "b"⟩

/-- C1 (counterexample): processing `Disconnected "x"` with "x" not in the
(empty) registry does send `deregister_device("x")` to the host
collaborator and emits no diagnostic, contradicting the claim that every
such message is a silent-to-collaborators no-op with a diagnostic. -/
theorem C1_counterexample :
    step env0 [] (DeviceMessage.Disconnected "x") =
      StepResult.next [] [Effect.host (HostCall.deregisterDevice "x")] ∧
    Effect.logError "x" ∉ [Effect.host (HostCall.deregisterDevice "x")] :=
  ⟨rfl, by decide⟩

/-- C1 (amended): for `Update`, `SetImage` and `SetBrightness` whose id is
not in the registry, processing leaves the registry unchanged, sends
nothing to any device handle or to the host collaborator, emits exactly
one error diagnostic and cannot panic; for `Disconnected` with an unknown
id the registry is also unchanged and no diagnostic is emitted, but the
host collaborator is still sent `deregister_device` (when the outbound
manager is present and the call succeeds). -/
theorem C1_unknown_id_handling (env : Env) (reg : Registry) (id : String)
    (h : lookupReg reg id = none) :
    (∀ upd, step env reg (.Update id upd) = .next reg [.logError id]) ∧
    (∀ img, step env reg (.SetImage id img) = .next reg [.logError id]) ∧
    (∀ level, step env reg (.SetBrightness id level) = .next reg [.logError id]) ∧
    (env.hasOutbound = true → env.hostOk (HostCall.deregisterDevice id) = true →
      step env reg (.Disconnected id) = .next reg [.host (.deregisterDevice id)]) ∧
    (env.hasOutbound = false → step env reg (.Disconnected id) = .next reg []) := by
  have hrem : removeReg reg id = reg := removeReg_of_lookup_none reg id h
  refine ⟨?_, ?_, ?_, ?_, ?_⟩
  · intro upd
    simp [step, containsReg, h]
  · intro img
    simp [step, h]
  · intro level
    simp [step, h]
  · intro hout hok
    simp [step, hout, hok, hrem]
  · intro hout
    simp [step, hout, hrem]

/-- Witness for C1 (amended) at the empty registry and id "x". -/
theorem C1_unknown_id_handling_witness :
    step env0 [] (DeviceMessage.Update "x" (StateUpdate.ButtonDown 7)) =
      StepResult.next [] [Effect.logError "x"] ∧
    step env0 [] (DeviceMessage.SetBrightness "x" 50) =
      StepResult.next [] [Effect.logError "x"] :=
  ⟨(C1_unknown_id_handling env0 [] "x" rfl).1 (StateUpdate.ButtonDown 7),
   (C1_unknown_id_handling env0 [] "x" rfl).2.2.1 50⟩

/-- C6: on `ShutdownAll` the dispatcher sends a `ShutdownAll` message to
the handle of every entry registered at that moment (effects are exactly
that broadcast, so a failed individual send, which the code discards with
`let _ =`, can never panic or stop the broadcast in any environment), the
registry is left unchanged, and the loop finishes without consuming any
further inbound message. -/
theorem C6_shutdown_broadcast (env : Env) (reg : Registry) (effs : List Effect)
    (rest : List (Option DeviceMessage)) :
    run env reg effs (some DeviceMessage.ShutdownAll :: rest) =
      .finished reg
        (effs ++ reg.map fun e => Effect.deviceSend e.2 DeviceMessage.ShutdownAll) ∧
    ∀ e ∈ reg, Effect.deviceSend e.2 DeviceMessage.ShutdownAll ∈
      reg.map fun e => Effect.deviceSend e.2 DeviceMessage.ShutdownAll := by
  exact ⟨rfl, fun e he => List.mem_map_of_mem _ he⟩

/-- Witness for C6 with one registered device and a pending further
message that is never processed. -/
theorem C6_shutdown_broadcast_witness :
    run env0 [("a", 1)] []
        [some DeviceMessage.ShutdownAll,
         some (DeviceMessage.Update "a" (StateUpdate.ButtonDown 1))] =
      RunResult.finished [("a", 1)] [Effect.deviceSend 1 DeviceMessage.ShutdownAll] ∧
    Effect.deviceSend 1 DeviceMessage.ShutdownAll ∈
      [Effect.deviceSend 1 DeviceMessage.ShutdownAll] :=
  ⟨(C6_shutdown_broadcast env0 [("a", 1)] []
      [some (DeviceMessage.Update "a" (StateUpdate.ButtonDown 1))]).1,
   (C6_shutdown_broadcast env0 [("a", 1)] []
      [some (DeviceMessage.Update "a" (StateUpdate.ButtonDown 1))]).2 ("a", 1)
      (by decide)⟩

/-- C7: for an id registered with some handle, `Update` with `ButtonDown`
(resp. `ButtonUp`) yields exactly one `key_down` (resp. `key_up`) host
notification carrying the same id and key, every other event kind yields
no effect and no state change, and `SetImage`/`SetBrightness` forward the
command unchanged to the registered handle with no diagnostic. -/
theorem C7_registered_routing (env : Env) (reg : Registry) (id : String)
    (handle : Nat) (hreg : lookupReg reg id = some handle)
    (hout : env.hasOutbound = true) :
    (∀ key, env.hostOk (HostCall.keyDown id key) = true →
      step env reg (.Update id (.ButtonDown key)) =
        .next reg [.host (.keyDown id key)]) ∧
    (∀ key, env.hostOk (HostCall.keyUp id key) = true →
      step env reg (.Update id (.ButtonUp key)) =
        .next reg [.host (.keyUp id key)]) ∧
    (∀ idx, step env reg (.Update id (.EncoderDown idx)) = .next reg []) ∧
    (∀ idx, step env reg (.Update id (.EncoderUp idx)) = .next reg []) ∧
    (∀ idx val, step env reg (.Update id (.EncoderTwist idx val)) = .next reg []) ∧
    (∀ img, env.sendOk handle = true →
      step env reg (.SetImage id img) =
        .next reg [.deviceSend handle (.SetImage id img)]) ∧
    (∀ level, env.sendOk handle = true →
      step env reg (.SetBrightness id level) =
        .next reg [.deviceSend handle (.SetBrightness id level)]) := by
  have hc : containsReg reg id = true := by simp [containsReg, hreg]
  refine ⟨?_, ?_, ?_, ?_, ?_, ?_, ?_⟩ <;> intros <;> simp [step, hc, hout, hreg, *]

/-- Witness for C7 with device "a" registered on handle 2. -/
theorem C7_registered_routing_witness :
    step env0 [("a", 2)] (DeviceMessage.Update "a" (StateUpdate.ButtonDown 7)) =
      StepResult.next [("a", 2)] [Effect.host (HostCall.keyDown "a" 7)] ∧
    step env0 [("a", 2)] (DeviceMessage.SetBrightness "a" 50) =
      StepResult.next [("a", 2)]
        [Effect.deviceSend 2 (DeviceMessage.SetBrightness "a" 50)] :=
  ⟨(C7_registered_routing env0 [("a", 2)] "a" 2 (by decide) rfl).1 7 rfl,
   (C7_registered_routing env0 [("a", 2)] "a" 2 (by decide) rfl).2.2.2.2.2.2 50 rfl⟩

/-- C8: in the reference behavior a failed host collaborator call
(`register_device`, `deregister_device`, `key_down`, `key_up`) panics the
dispatcher task through `.unwrap()`: the step result is `panicked` with
exactly the one attempted call (no retry), and a panicking step makes the
whole run panic without consuming the rest of the stream. -/
theorem C8_host_failure_aborts (env : Env) (reg : Registry)
    (hout : env.hasOutbound = true) :
    (∀ id kind handle,
      env.hostOk (HostCall.registerDevice id kind.human_name ROW_COUNT COL_COUNT 0 0)
        = false →
      step env reg (.Connected id kind handle) =
        .panicked [.host (.registerDevice id kind.human_name ROW_COUNT COL_COUNT 0 0)]) ∧
    (∀ id, env.hostOk (HostCall.deregisterDevice id) = false →
      step env reg (.Disconnected id) = .panicked [.host (.deregisterDevice id)]) ∧
    (∀ id key, containsReg reg id = true →
      env.hostOk (HostCall.keyDown id key) = false →
      step env reg (.Update id (.ButtonDown key)) =
        .panicked [.host (.keyDown id key)]) ∧
    (∀ id key, containsReg reg id = true →
      env.hostOk (HostCall.keyUp id key) = false →
      step env reg (.Update id (.ButtonUp key)) =
        .panicked [.host (.keyUp id key)]) ∧
    (∀ (effs : List Effect) (rest : List (Option DeviceMessage)) (m : DeviceMessage)
        (es : List Effect),
      step env reg m = .panicked es →
      run env reg effs (some m :: rest) = .panicked (effs ++ es)) := by
  refine ⟨?_, ?_, ?_, ?_, ?_⟩ <;> intros <;> simp_all [step, run]

/-- Witness for C8 in an environment where every host call fails. -/
theorem C8_host_failure_aborts_witness :
    step { hasOutbound := true, hostOk := fun _ => false, sendOk := fun _ => true }
        [("a", 2)] (DeviceMessage.Disconnected "a") =
      StepResult.panicked [Effect.host (HostCall.deregisterDevice "a")] ∧
    step { hasOutbound := true, hostOk := fun _ => false, sendOk := fun _ => true }
        [("a", 2)] (DeviceMessage.Update "a" (StateUpdate.ButtonDown 7)) =
      StepResult.panicked [Effect.host (HostCall.keyDown "a" 7)] :=
  ⟨(C8_host_failure_aborts
      { hasOutbound := true, hostOk := fun _ => false, sendOk := fun _ => true }
      [("a", 2)] rfl).2.1 "a" rfl,
   (C8_host_failure_aborts
      { hasOutbound := true, hostOk := fun _ => false, sendOk := fun _ => true }
      [("a", 2)] rfl).2.2.1 "a" 7 (by decide) rfl⟩

/-- C9 (counterexample): when `recv()` yields `none` (inbound channel
closed and empty) the dispatcher run panics on the `.unwrap()`; it does
not finish gracefully. -/
theorem C9_counterexample :
    run env0 [] [] [none] = RunResult.panicked [] := rfl

/-- C9 (amended): an unrecoverable failure to receive from the inbound
channel makes the dispatcher task panic through `.unwrap()` immediately,
consuming nothing further, rather than returning gracefully. -/
theorem C9_recv_failure_panics (env : Env) (reg : Registry) (effs : List Effect)
    (rest : List (Option DeviceMessage)) :
    run env reg effs (none :: rest) = RunResult.panicked effs := rfl

/-- C3: `Kind::from_vid_pid` is a pure total function on (vendor id,
product id) pairs: it returns `some` of the corresponding kind exactly on
the eleven catalog triples and `none` on every other pair, never a default
kind; in particular vendor 0x0300 with product 0x6674 resolves to
`Kind.AKP153`, whose protocol generation is 1 and whose id suffix is
"153". -/
theorem C3_from_vid_pid_catalog :
    (∀ vid pid k, Kind.from_vid_pid vid pid = some k ↔ (vid, pid, k) ∈ vidPidCatalog) ∧
    vidPidCatalog.length = 11 ∧
    Kind.from_vid_pid 0x0300 0x6674 = some Kind.AKP153 ∧
    Kind.protocol_version Kind.AKP153 = 1 ∧
    Kind.id_suffix Kind.AKP153 = some "153" := by
  refine ⟨?_, by decide, by decide, by decide, by decide⟩
  intro vid pid k
  constructor
  · intro h
    unfold Kind.from_vid_pid at h
    split_ifs at h <;>
      first
        | exact Option.noConfusion h
        | (injection h with h
           subst h
           subst_vars
           decide)
  · intro h
    have hall : ∀ t ∈ vidPidCatalog, Kind.from_vid_pid t.1 t.2.1 = some t.2.2 := by
      decide
    exact hall (vid, pid, k) h

/-- C4: `Kind::id_suffix` returns a suffix for every kind of protocol
generation 1 and takes its panicking (`unreachable!`, embedded as `none`)
branch exactly for the kinds of protocol generation 2; so under the
precondition `protocol_version = 1` the error branch is unreachable. -/
theorem C4_id_suffix_generation :
    ∀ k : Kind, (k.id_suffix.isSome ↔ k.protocol_version = 1) ∧
      (k.id_suffix = none ↔ k.protocol_version = 2) := by
  intro k
  cases k <;> decide

/-- C5: `get_image_format_for_key` always returns JPEG mode, 90-degree
rotation and both-axes mirroring; its size is (85, 85) for every
generation-1 kind, and for generation-2 kinds the size is (82, 82) exactly
for key indices 5, 11 and 17 and (95, 95) for every other key index. -/
theorem C5_image_format (kind : Kind) (key : Nat) :
    (get_image_format_for_key kind key).mode = ImageMode.JPEG ∧
    (get_image_format_for_key kind key).rotation = ImageRotation.Rot90 ∧
    (get_image_format_for_key kind key).mirror = ImageMirroring.Both ∧
    (kind.protocol_version = 1 → (get_image_format_for_key kind key).size = (85, 85)) ∧
    (kind.protocol_version = 2 →
      ((get_image_format_for_key kind key).size = (82, 82) ↔
        (key = 5 ∨ key = 11 ∨ key = 17)) ∧
      (¬(key = 5 ∨ key = 11 ∨ key = 17) →
        (get_image_format_for_key kind key).size = (95, 95))) := by
  unfold get_image_format_for_key
  cases kind <;> simp [Kind.protocol_version] <;> omega

/-- Witness for C5 at concrete kinds and key indices. -/
theorem C5_image_format_witness :
    (get_image_format_for_key Kind.AKP153 0).size = (85, 85) ∧
    (get_image_format_for_key Kind.HSV293SV3 5).size = (82, 82) ∧
    (get_image_format_for_key Kind.HSV293SV3 0).size = (95, 95) :=
  ⟨(C5_image_format Kind.AKP153 0).2.2.2.1 (by decide),
   ((C5_image_format Kind.HSV293SV3 5).2.2.2.2 (by decide)).1.mpr (Or.inl rfl),
   ((C5_image_format Kind.HSV293SV3 0).2.2.2.2 (by decide)).2 (by decide)⟩

/-- C10: `Kind::supports_both_states` is true exactly for the kinds of
protocol generation 2, and those are exactly HSV293SV3, HSV293SV3_1005 and
AKP153EREV2; every generation-1 kind reports false (one event per
press). -/
theorem C10_dual_transitions :
    ∀ k : Kind, (k.supports_both_states = true ↔ k.protocol_version = 2) ∧
      (k.protocol_version = 2 ↔
        (k = Kind.HSV293SV3 ∨ k = Kind.HSV293SV3_1005 ∨ k = Kind.AKP153EREV2)) := by
  intro k
  cases k <;> decide

end Akp153
